import Mathlib

/-!
Verification of the Root-of-Trust firmware core (DICE identity pipeline,
handoff protocol, reseeding PRNG server, attestation server) against its
natural-language specification.  Each Rust function named in a claim is
shallowly embedded as an executable Lean definition; machine integers are
modelled as `Nat` (with explicit bounds where overflow matters) and byte
buffers as `List UInt8` or `List Nat`.
-/

set_option maxRecDepth 10000

/-! ## Reseeding PRNG (drv/lpc55-rng/src/main.rs)

The inner ChaCha20 generator is an external crate; for the purposes of the
reseed-accounting claims it is modelled as an abstract deterministic byte
stream `stream sid pos`: byte number `pos` of the stream produced by the
`sid`-th seeding of the inner generator.  The hardware RNG never fails in
this model (the claim quantifies over successful calls only).
-/

/-- `usize::MAX` on the 32-bit LPC55 target. -/
def USIZE_MAX : Nat := 2 ^ 32 - 1

/-- State of `ReseedingRng<ChaCha20Rng>` from drv/lpc55-rng/src/main.rs.
`innerSid` counts how many times the inner generator has been seeded from
the hardware RNG (`T::from_rng`), `innerPos` is the read position in the
current inner stream. -/
structure ReseedingRng where
  innerSid : Nat
  innerPos : Nat
  threshold : Nat
  bytes_until_reseed : Nat
  deriving Repr, DecidableEq

/-- `ReseedingRng::new(reseeder, threshold)`: threshold `0` means `usize::MAX`;
the inner generator is seeded once (`T::from_rng`) and the byte budget is set
to the threshold. -/
def ReseedingRng.new (threshold : Nat) : ReseedingRng :=
  let t := if threshold = 0 then USIZE_MAX else threshold
  { innerSid := 1, innerPos := 0, threshold := t, bytes_until_reseed := t }

/-- `ReseedingRng::try_fill_bytes(dest)` from drv/lpc55-rng/src/main.rs
(lines 233-246).  If `dest.len() >= bytes_until_reseed || dest.len() >=
threshold` the inner generator is reseeded once (`T::from_rng`) and the
budget is reset to `threshold`; otherwise the budget is decremented by
`dest.len()`.  In either case the whole of `dest` is then filled from the
inner stream (`self.inner.try_fill_bytes(dest)`, which for ChaCha20 always
succeeds and fills the buffer completely). -/
def ReseedingRng.tryFillBytes (stream : Nat → Nat → UInt8) (rng : ReseedingRng)
    (numBytes : Nat) : ReseedingRng × List UInt8 :=
  if rng.bytes_until_reseed ≤ numBytes ∨ rng.threshold ≤ numBytes then
    let sid := rng.innerSid + 1
    ({ rng with
        innerSid := sid
        innerPos := numBytes
        bytes_until_reseed := rng.threshold },
      (List.range numBytes).map fun j => stream sid j)
  else
    ({ rng with
        innerPos := rng.innerPos + numBytes
        bytes_until_reseed := rng.bytes_until_reseed - numBytes },
      (List.range numBytes).map fun j => stream rng.innerSid (rng.innerPos + j))

/-- Number of reseeds (re-derivations of the inner seed from the hardware
RNG) performed by one `try_fill_bytes` call. -/
def ReseedingRng.reseedsDuringFill (stream : Nat → Nat → UInt8)
    (rng : ReseedingRng) (numBytes : Nat) : Nat :=
  (rng.tryFillBytes stream numBytes).1.innerSid - rng.innerSid

/-- Zero stream, used to instantiate the abstract inner generator on
concrete runs. -/
def zeroStream : Nat → Nat → UInt8 := fun _ _ => 0

/-! ## Attestation server (task/attest/src/main.rs)

`AliasData` and `CertData` are the handoff blobs the server loads at
startup; only the fields the server reads are modelled.  Certificate
buffers are byte lists; `SizedBlob` carries a fixed-capacity buffer plus
the number of bytes used. -/

/-- Error enum `attest_api::AttestError` (the variants reachable from the
operations under verification). -/
inductive AttestError where
  | NoCerts
  | InvalidCertIndex
  | OutOfRange
  | CertTooBig
  deriving Repr, DecidableEq

/-- A length-prefixed fixed-capacity byte container (`SizedBlob`): `data`
is the backing array, `size` the number of bytes used. -/
structure SizedBlob where
  data : List UInt8
  size : Nat
  deriving Repr, DecidableEq

/-- The fields of the `CertData` handoff blob read by the attest server. -/
structure CertDataView where
  persistid_cert : SizedBlob
  deviceid_cert : List UInt8
  intermediate_cert : Option SizedBlob
  deriving Repr, DecidableEq

/-- The field of the `AliasData` handoff blob read by the attest server. -/
structure AliasDataView where
  alias_cert : List UInt8
  deriving Repr, DecidableEq

/-- `AttestServer` state: each handoff blob is `none` when loading it at
startup failed. -/
structure AttestServer where
  alias_data : Option AliasDataView
  cert_data : Option CertDataView
  deriving Repr, DecidableEq

/-- `AttestServer::default()` (task/attest/src/main.rs lines 60-87): load
each handoff region; on a load error the corresponding state is `None` and
startup continues (no panic path exists). -/
def AttestServer.default (aliasLoad : Option AliasDataView)
    (certLoad : Option CertDataView) : AttestServer :=
  { alias_data := aliasLoad, cert_data := certLoad }

/-- `AttestServer::get_alias_data` (lines 89-95). -/
def AttestServer.get_alias_data (s : AttestServer) :
    Except AttestError AliasDataView :=
  match s.alias_data with
  | some d => .ok d
  | none => .error .NoCerts

/-- `AttestServer::get_cert_data` (lines 97-102). -/
def AttestServer.get_cert_data (s : AttestServer) :
    Except AttestError CertDataView :=
  match s.cert_data with
  | some d => .ok d
  | none => .error .NoCerts

/-- `AttestServer::get_cert_bytes_from_index` (lines 104-129): index 0 is
the Alias (leaf) cert, 1 the DeviceId cert, 2 the PersistId cert trimmed
to its recorded size, 3 the optional intermediate cert trimmed to its
recorded size; anything else is `InvalidCertIndex`. -/
def AttestServer.get_cert_bytes_from_index (s : AttestServer) (index : Nat) :
    Except AttestError (List UInt8) := do
  let alias_data ← s.get_alias_data
  let cert_data ← s.get_cert_data
  match index with
  | 0 => .ok alias_data.alias_cert
  | 1 => .ok cert_data.deviceid_cert
  | 2 => .ok (cert_data.persistid_cert.data.take cert_data.persistid_cert.size)
  | 3 =>
    match cert_data.intermediate_cert with
    | some cert => .ok (cert.data.take cert.size)
    | none => .error .InvalidCertIndex
  | _ => .error .InvalidCertIndex

/-- `AttestServer::cert_chain_len` (lines 133-153): `NoCerts` when the cert
data failed to load, else 3 without an intermediate cert and 4 with one. -/
def AttestServer.cert_chain_len (s : AttestServer) : Except AttestError Nat := do
  let cert_data ← s.get_cert_data
  .ok (if cert_data.intermediate_cert.isNone then 3 else 4)

/-- `AttestServer::cert_len` (lines 156-171): length of the cert at the
given index; `CertTooBig` if it does not fit a `u32` (never reachable for
the fixed-size certs). -/
def AttestServer.cert_len (s : AttestServer) (index : Nat) :
    Except AttestError Nat := do
  let len := (← s.get_cert_bytes_from_index index).length
  if len < 2 ^ 32 then .ok len else .error .CertTooBig

/-- Outcome of the `cert` operation: a reply to the client, or a panic of
the server task.  The `u32` offset is a `Nat` below `2^32`; the unsigned
subtraction `cert.len() - offset` underflows when `offset > cert.len()`,
which panics the task (directly under overflow-checked arithmetic; via the
subsequent out-of-bounds slice `cert[offset..offset + dest.len()]` under
wrapping arithmetic when `dest.len()` is small, e.g. zero). -/
inductive CertOutcome where
  | ok (written : List UInt8)
  | err (e : AttestError)
  | panicked
  deriving Repr, DecidableEq

/-- `AttestServer::cert` (task/attest/src/main.rs lines 174-205) under
overflow-checked arithmetic: reply bytes for the lease of length `destLen`,
an error reply, or a task panic from the underflowing subtraction. -/
def AttestServer.cert (s : AttestServer) (index offset destLen : Nat) :
    CertOutcome :=
  match s.get_cert_bytes_from_index index with
  | .error e => .err e
  | .ok cert =>
    if cert.length = 0 then .err .InvalidCertIndex
    else if offset > cert.length then .panicked
    else if destLen > cert.length - offset then .err .OutOfRange
    else .ok ((cert.drop offset).take destLen)

/-! ## Handoff memory layout and typed blobs (lib/dice/src/handoff.rs)

Each blob type binds a start address, a reserved region size, a 16-byte
magic, and a hubpack-serialized maximum size.  hubpack serialization of
these all-fixed-size structs is the plain concatenation of the fields, so
`store` writes `serialize t` at the start of the region and `from_mem`
deserializes the region and compares the magic. -/

def MEM_START : Nat := 0x40100000
def CERTS_START : Nat := MEM_START
def CERTS_SIZE : Nat := 0x800
def ALIAS_START : Nat := CERTS_START + CERTS_SIZE
def ALIAS_SIZE : Nat := 0x800
def SPMEASURE_START : Nat := ALIAS_START + ALIAS_SIZE
def SPMEASURE_SIZE : Nat := 0x800
def RNG_START : Nat := SPMEASURE_START + SPMEASURE_SIZE
def RNG_SIZE : Nat := 0x100

/-- `CERT_BLOB_SIZE` from lib/dice/src/mfg.rs: backing size of a
`CertBlob`. -/
def CERT_BLOB_SIZE : Nat := 768

/-- `spmeasure_cert_tmpl::SIZE` (lib/dice/src/spmeasure_cert_tmpl.rs). -/
def spmeasure_cert_tmpl.SIZE : Nat := 631

/-- Modelled from the spec: the Alias / TrustQuorumDHE leaf template file
(`alias_cert_tmpl.rs` / `leafcert_tmpl`) is not under src/ (only its users
are).  Per spec section 6.3 the leaf templates share one shape, realized in
src/ by `spmeasure_cert_tmpl` (FWID at 525..557): total size 631 bytes. -/
def leafcert_tmpl.SIZE : Nat := 631

/-- `CertChain` from lib/dice/src/mfg.rs: two fixed 768-byte blobs. -/
structure CertChain where
  device_id : List UInt8
  intermediate : List UInt8
  deriving Repr, DecidableEq

/-- `CertData` handoff blob (lib/dice/src/handoff.rs lines 105-132). -/
structure CertData where
  magic : List UInt8
  certs : CertChain
  deriving Repr, DecidableEq

def CertData.EXPECTED_MAGIC : List UInt8 :=
  [0x61, 0x3c, 0xc9, 0x2e, 0x42, 0x97, 0x96, 0xf5, 0xfa, 0xc8, 0x76, 0x69,
   0x9a, 0xf2, 0x07, 0xbf]

def CertData.MAX_SIZE : Nat := 16 + CERT_BLOB_SIZE + CERT_BLOB_SIZE
def CertData.MEM_SIZE : Nat := CERTS_SIZE
def CertData.MEM_START : Nat := CERTS_START

/-- hubpack serialization of `CertData`. -/
def CertData.serialize (d : CertData) : List UInt8 :=
  d.magic ++ d.certs.device_id ++ d.certs.intermediate

/-- hubpack deserialization of `CertData` from the bytes of its region. -/
def CertData.deserialize (src : List UInt8) : Option CertData :=
  if CertData.MAX_SIZE ≤ src.length then
    some { magic := src.take 16
           certs := { device_id := (src.drop 16).take CERT_BLOB_SIZE
                      intermediate :=
                        (src.drop (16 + CERT_BLOB_SIZE)).take CERT_BLOB_SIZE } }
  else none

/-- `HandoffData::from_mem` for `CertData`: deserialize, then require the
deserialized magic to equal `EXPECTED_MAGIC`. -/
def CertData.from_mem (region : List UInt8) : Option CertData :=
  match CertData.deserialize region with
  | some d => if d.magic = CertData.EXPECTED_MAGIC then some d else none
  | none => none

/-- `AliasData` handoff blob (lib/dice/src/handoff.rs lines 141-182). -/
structure AliasData where
  magic : List UInt8
  alias_seed : List UInt8
  alias_cert : List UInt8
  tqdhe_seed : List UInt8
  tqdhe_cert : List UInt8
  deriving Repr, DecidableEq

def AliasData.EXPECTED_MAGIC : List UInt8 :=
  [0x3e, 0xbc, 0x3c, 0xdc, 0x60, 0x37, 0xab, 0x86, 0xf0, 0x60, 0x20, 0x52,
   0xc4, 0xfd, 0xd5, 0x58]

def AliasData.MAX_SIZE : Nat :=
  16 + 32 + leafcert_tmpl.SIZE + 32 + leafcert_tmpl.SIZE
def AliasData.MEM_SIZE : Nat := ALIAS_SIZE
def AliasData.MEM_START : Nat := ALIAS_START

def AliasData.serialize (d : AliasData) : List UInt8 :=
  d.magic ++ d.alias_seed ++ d.alias_cert ++ d.tqdhe_seed ++ d.tqdhe_cert

def AliasData.deserialize (src : List UInt8) : Option AliasData :=
  if AliasData.MAX_SIZE ≤ src.length then
    some { magic := src.take 16
           alias_seed := (src.drop 16).take 32
           alias_cert := (src.drop 48).take leafcert_tmpl.SIZE
           tqdhe_seed := (src.drop (48 + leafcert_tmpl.SIZE)).take 32
           tqdhe_cert := (src.drop (80 + leafcert_tmpl.SIZE)).take
             leafcert_tmpl.SIZE }
  else none

def AliasData.from_mem (region : List UInt8) : Option AliasData :=
  match AliasData.deserialize region with
  | some d => if d.magic = AliasData.EXPECTED_MAGIC then some d else none
  | none => none

/-- `SpMeasureData` handoff blob (lib/dice/src/handoff.rs lines 186-220). -/
structure SpMeasureData where
  magic : List UInt8
  seed : List UInt8
  spmeasure_cert : List UInt8
  deriving Repr, DecidableEq

def SpMeasureData.EXPECTED_MAGIC : List UInt8 :=
  [0xec, 0x4a, 0xc2, 0x1c, 0xb5, 0xaa, 0x5b, 0x34, 0x47, 0x84, 0x96, 0x4a,
   0x0a, 0x55, 0x54, 0x37]

def SpMeasureData.MAX_SIZE : Nat := 16 + 32 + spmeasure_cert_tmpl.SIZE
def SpMeasureData.MEM_SIZE : Nat := SPMEASURE_SIZE
def SpMeasureData.MEM_START : Nat := SPMEASURE_START

def SpMeasureData.serialize (d : SpMeasureData) : List UInt8 :=
  d.magic ++ d.seed ++ d.spmeasure_cert

def SpMeasureData.deserialize (src : List UInt8) : Option SpMeasureData :=
  if SpMeasureData.MAX_SIZE ≤ src.length then
    some { magic := src.take 16
           seed := (src.drop 16).take 32
           spmeasure_cert := (src.drop 48).take spmeasure_cert_tmpl.SIZE }
  else none

def SpMeasureData.from_mem (region : List UInt8) : Option SpMeasureData :=
  match SpMeasureData.deserialize region with
  | some d => if d.magic = SpMeasureData.EXPECTED_MAGIC then some d else none
  | none => none

/-- `RngData` handoff blob (lib/dice/src/handoff.rs lines 222-252). -/
structure RngData where
  magic : List UInt8
  seed : List UInt8
  deriving Repr, DecidableEq

def RngData.EXPECTED_MAGIC : List UInt8 :=
  [0xb2, 0x48, 0x4b, 0x83, 0x3f, 0xee, 0xc0, 0xc0, 0xba, 0x0a, 0x5b, 0x6c,
   0x34, 0x98, 0x45, 0x6c]

def RngData.MAX_SIZE : Nat := 16 + 32
def RngData.MEM_SIZE : Nat := RNG_SIZE
def RngData.MEM_START : Nat := RNG_START

def RngData.serialize (d : RngData) : List UInt8 :=
  d.magic ++ d.seed

def RngData.deserialize (src : List UInt8) : Option RngData :=
  if RngData.MAX_SIZE ≤ src.length then
    some { magic := src.take 16, seed := (src.drop 16).take 32 }
  else none

def RngData.from_mem (region : List UInt8) : Option RngData :=
  match RngData.deserialize region with
  | some d => if d.magic = RngData.EXPECTED_MAGIC then some d else none
  | none => none

/-- `Handoff::store` (lib/dice/src/handoff.rs lines 66-75) serializes the
blob into the first `MAX_SIZE` bytes of its region; for these fixed-size
types the serialized form occupies the whole slice, so the region contents
after a store are exactly the serialization. -/
def Handoff.storeRngData (d : RngData) : List UInt8 := d.serialize

def Handoff.storeCertData (d : CertData) : List UInt8 := d.serialize

def Handoff.storeAliasData (d : AliasData) : List UInt8 := d.serialize

def Handoff.storeSpMeasureData (d : SpMeasureData) : List UInt8 := d.serialize

/-! ## Certificate templates and signing (lib/dice/src/cert.rs)

A cert owns a byte buffer of exactly the template length.  Field setters
copy into fixed ranges (`copy_from_slice`, so the source must have exactly
the range's length).  `sign` extracts the TBS byte range, signs it with
the issuer keypair (the Ed25519 primitive from the external salty crate is
abstracted as a function producing a 64-byte signature) and copies the
signature into the SIG range. -/

/-- Replace bytes `[start, stop)` of `buf` with `src`; the image of
`copy_from_slice` into a subrange when `src.length = stop - start`. -/
def setRange (buf : List UInt8) (start stop : Nat) (src : List UInt8) :
    List UInt8 :=
  buf.take start ++ src ++ buf.drop stop

/-- Offsets of the DeviceId cert template, from
lib/dice/src/deviceid_cert_tmpl.rs (the template cert.rs calls
`cert_tmpl`). -/
def cert_tmpl.SIZE : Nat := 565
def cert_tmpl.SERIAL_NUMBER_START : Nat := 15
def cert_tmpl.SERIAL_NUMBER_END : Nat := 16
def cert_tmpl.ISSUER_SN_START : Nat := 169
def cert_tmpl.ISSUER_SN_END : Nat := 180
def cert_tmpl.SUBJECT_SN_START : Nat := 360
def cert_tmpl.SUBJECT_SN_END : Nat := 371
def cert_tmpl.PUB_START : Nat := 383
def cert_tmpl.PUB_END : Nat := 415
def cert_tmpl.SIG_START : Nat := 501
def cert_tmpl.SIG_END : Nat := 565
def cert_tmpl.SIGNDATA_START : Nat := 4
def cert_tmpl.SIGNDATA_END : Nat := 491

/-- Offsets of the leaf cert template used by `AliasCert`
(`leafcert_tmpl`).  Modelled from the spec: the leaf template file is not
under src/; per spec section 6.3 the leaf templates share the shape
realized in src/ by `spmeasure_cert_tmpl` (SERIAL_NUMBER 15..16, ISSUER_SN
169..180, SUBJECT_SN 361..372, PUB 384..416, FWID 525..557, SIG 567..631,
SIGNDATA 4..557, total 631 bytes). -/
def leafcert_tmpl.SERIAL_NUMBER_START : Nat := 15
def leafcert_tmpl.SERIAL_NUMBER_END : Nat := 16
def leafcert_tmpl.ISSUER_SN_START : Nat := 169
def leafcert_tmpl.ISSUER_SN_END : Nat := 180
def leafcert_tmpl.SUBJECT_SN_START : Nat := 361
def leafcert_tmpl.SUBJECT_SN_END : Nat := 372
def leafcert_tmpl.PUB_START : Nat := 384
def leafcert_tmpl.PUB_END : Nat := 416
def leafcert_tmpl.FWID_START : Nat := 525
def leafcert_tmpl.FWID_END : Nat := 557
def leafcert_tmpl.SIG_START : Nat := 567
def leafcert_tmpl.SIG_END : Nat := 631
def leafcert_tmpl.SIGNDATA_START : Nat := 4
def leafcert_tmpl.SIGNDATA_END : Nat := 557

/-- `DeviceIdCert::get_signdata` (cert.rs lines 100-104): the TBS slice. -/
def DeviceIdCert.get_signdata (buf : List UInt8) : List UInt8 :=
  (buf.drop cert_tmpl.SIGNDATA_START).take
    (cert_tmpl.SIGNDATA_END - cert_tmpl.SIGNDATA_START)

/-- `DeviceIdCert::sign(keypair)` (cert.rs lines 106-113): sign the TBS
range with the issuer key (`sigFn`, producing the 64-byte Ed25519
signature) and copy the result into the SIG range via `set_sig`. -/
def DeviceIdCert.sign (sigFn : List UInt8 → List UInt8) (buf : List UInt8) :
    List UInt8 :=
  setRange buf cert_tmpl.SIG_START cert_tmpl.SIG_END
    (sigFn (DeviceIdCert.get_signdata buf))

/-- `AliasCert::get_signdata` (cert.rs lines 188-192). -/
def AliasCert.get_signdata (buf : List UInt8) : List UInt8 :=
  (buf.drop leafcert_tmpl.SIGNDATA_START).take
    (leafcert_tmpl.SIGNDATA_END - leafcert_tmpl.SIGNDATA_START)

/-- `AliasCert::sign(keypair)` (cert.rs lines 195-202). -/
def AliasCert.sign (sigFn : List UInt8 → List UInt8) (buf : List UInt8) :
    List UInt8 :=
  setRange buf leafcert_tmpl.SIG_START leafcert_tmpl.SIG_END
    (sigFn (AliasCert.get_signdata buf))

/-! ## Stage0 DICE pipeline (stage0/src/dice.rs, stage0/src/dice_mfg_self.rs,
lib/dice/src/lib.rs)

The CDI register bank is eight 32-bit words at `0x4000_0900`; it is
modelled as a list of `Nat` words.  The cert-serial counter and the leaf
cert builders live in the dice library revision used by stage0, which is
not under src/; they are modelled from the spec where noted. -/

/-- Little-endian bytes of a `u32` (`u32::to_ne_bytes` on the ARM
target). -/
def u32ToLeBytes (n : Nat) : List UInt8 :=
  [UInt8.ofNat n, UInt8.ofNat (n / 2 ^ 8), UInt8.ofNat (n / 2 ^ 16),
   UInt8.ofNat (n / 2 ^ 24)]

/-- `Cdi::new` / `Cdi::from_reg` (lib/dice/src/lib.rs lines 46-79): read
the eight CDI registers into 32 bytes, unconditionally overwrite the
registers with zeros (`clear_registers`, lines 86-100), and return `Some`
exactly when the bytes read are not all zero.  Returns the result together
with the register bank after the call. -/
def Cdi.from_reg (regs : List Nat) : Option (List UInt8) × List Nat :=
  let cdi := ((regs.take 8).map u32ToLeBytes).flatten
  let regsAfter := List.replicate 8 0 ++ regs.drop 8
  (if cdi.all (· == 0) then none else some cdi, regsAfter)

/-- Modelled from the spec: `CertSerialNumber` is defined in the dice
library revision used by stage0, which is not under src/ (only its callers
are).  The spec describes it as a single byte, monotonically incremented
per child certificate, with the first three child certs issued by the
DeviceId receiving serial bytes 1, 2 and 3 (spec section 8 scenario 2):
`next` increments the counter and returns the new value; the default
counter starts at 0. -/
structure CertSerialNumber where
  value : Nat
  deriving Repr, DecidableEq

def CertSerialNumber.default : CertSerialNumber := ⟨0⟩

def CertSerialNumber.next (csn : CertSerialNumber) :
    Nat × CertSerialNumber :=
  (csn.value + 1, ⟨csn.value + 1⟩)

/-- `SerialNumbers` from stage0/src/dice.rs lines 51-54: the running
cert-serial counter plus the platform serial number (11 ASCII bytes). -/
structure SerialNumbers where
  cert_serial_number : CertSerialNumber
  serial_number : List UInt8
  deriving Repr, DecidableEq

/-- The placeholder platform serial number `"0123456789ab"` used in
self-signed mode (lib/dice/src/mfg.rs line 65). -/
def PLACEHOLDER_SN : List UInt8 :=
  [0x30, 0x31, 0x32, 0x33, 0x34, 0x35, 0x36, 0x37, 0x38, 0x39, 0x61, 0x62]

/-- `gen_mfg_artifacts` (stage0/src/dice_mfg_self.rs lines 22-80): the
self-signed manufacturing step issues the DeviceId cert from its own
counter and returns a fresh default `CertSerialNumber` together with the
platform serial number for the leaf certs signed by the DeviceId. -/
def gen_mfg_artifacts : SerialNumbers :=
  { cert_serial_number := CertSerialNumber.default
    serial_number := PLACEHOLDER_SN }

/-- Modelled from the spec: the leaf cert builders (`AliasCertBuilder`,
`TrustQuorumDheCertBuilder`, `SpMeasureCertBuilder`) are not under src/
(only their callers in stage0/src/dice.rs are).  Per the spec builder
contract (section 4.1) the builder copies the cert serial, issuer and
subject serial numbers, public key and FWID into their template ranges and
then signs the TBS range, copying the 64-byte signature into the SIG
range.  `tmpl` is the leaf template blob; the field ranges are those of
`leafcert_tmpl` above. -/
def leafCertBuildSign (sigFn : List UInt8 → List UInt8) (tmpl : List UInt8)
    (serial : Nat) (issuerSn subjectSn pubkey fwid : List UInt8) :
    List UInt8 :=
  let buf := setRange tmpl leafcert_tmpl.SERIAL_NUMBER_START
    leafcert_tmpl.SERIAL_NUMBER_END [UInt8.ofNat serial]
  let buf := setRange buf leafcert_tmpl.ISSUER_SN_START
    leafcert_tmpl.ISSUER_SN_END issuerSn
  let buf := setRange buf leafcert_tmpl.SUBJECT_SN_START
    leafcert_tmpl.SUBJECT_SN_END subjectSn
  let buf := setRange buf leafcert_tmpl.PUB_START leafcert_tmpl.PUB_END pubkey
  let buf := setRange buf leafcert_tmpl.FWID_START leafcert_tmpl.FWID_END fwid
  AliasCert.sign sigFn buf

/-- The certs produced by one `gen_alias_artifacts` call
(stage0/src/dice.rs lines 223-257): the Alias cert is built from
`cert_serial_number.next()`, then the TrustQuorumDHE cert from the next
`next()`; both are signed by the DeviceId keypair.  Returns the two certs
and the advanced counter. -/
def gen_alias_artifacts (sigFn : List UInt8 → List UInt8)
    (tmpl : List UInt8) (csn : CertSerialNumber) (serial_number : List UInt8)
    (aliasPub tqdhePub fwid : List UInt8) :
    (List UInt8 × List UInt8) × CertSerialNumber :=
  let (aliasSn, csn) := csn.next
  let alias_cert :=
    leafCertBuildSign sigFn tmpl aliasSn serial_number serial_number
      aliasPub fwid
  let (tqdheSn, csn) := csn.next
  let tqdhe_cert :=
    leafCertBuildSign sigFn tmpl tqdheSn serial_number serial_number
      tqdhePub fwid
  ((alias_cert, tqdhe_cert), csn)

/-- The cert produced by one `gen_spmeasure_artifacts` call
(stage0/src/dice.rs lines 259-281). -/
def gen_spmeasure_artifacts (sigFn : List UInt8 → List UInt8)
    (tmpl : List UInt8) (csn : CertSerialNumber) (serial_number : List UInt8)
    (spmeasurePub fwid : List UInt8) : List UInt8 × CertSerialNumber :=
  let (spmeasureSn, csn) := csn.next
  let spmeasure_cert :=
    leafCertBuildSign sigFn tmpl spmeasureSn serial_number serial_number
      spmeasurePub fwid
  (spmeasure_cert, csn)

/-- The handoff stores performed by a stage0 DICE run. -/
inductive HandoffStoreTag where
  | certs
  | alias
  | spmeasure
  | rng
  deriving Repr, DecidableEq

/-- Result of `dice::run` (stage0/src/dice.rs lines 310-352): which
handoff blobs were stored, the three leaf certs, and the final cert-serial
counter. -/
structure Stage0Result where
  stores : List HandoffStoreTag
  alias_cert : List UInt8
  tqdhe_cert : List UInt8
  spmeasure_cert : List UInt8
  counter : CertSerialNumber
  deriving Repr, DecidableEq

/-- `dice::run` (stage0/src/dice.rs lines 310-352): read the CDI; if it is
`None` (registers all zero, DICE disabled) return with no artifacts
produced; otherwise run the manufacturing step and generate the Alias,
TrustQuorumDHE, SpMeasure and Rng artifacts in that order.  The Ed25519
keys and signatures are abstracted by `sigFn` and the public keys; they do
not affect the stores or the serial bytes. -/
def dice.run (sigFn : List UInt8 → List UInt8) (tmpl : List UInt8)
    (aliasPub tqdhePub spmeasurePub fwid : List UInt8) (regs : List Nat) :
    Stage0Result × List Nat :=
  let (cdi, regsAfter) := Cdi.from_reg regs
  match cdi with
  | none =>
    ({ stores := [], alias_cert := [], tqdhe_cert := [], spmeasure_cert := []
       counter := CertSerialNumber.default }, regsAfter)
  | some _ =>
    let serial_numbers := gen_mfg_artifacts
    let ((alias_cert, tqdhe_cert), csn) :=
      gen_alias_artifacts sigFn tmpl serial_numbers.cert_serial_number
        serial_numbers.serial_number aliasPub tqdhePub fwid
    let (spmeasure_cert, csn) :=
      gen_spmeasure_artifacts sigFn tmpl csn serial_numbers.serial_number
        spmeasurePub fwid
    ({ stores := [.certs, .alias, .spmeasure, .rng]
       alias_cert := alias_cert
       tqdhe_cert := tqdhe_cert
       spmeasure_cert := spmeasure_cert
       counter := csn }, regsAfter)

/-- A concrete attest-server state holding certs at every chain index but
index 3: the Alias cert is the 631-byte leaf, the DeviceId cert the
565-byte template, the PersistId cert a 768-byte blob trimmed to 565
bytes, no intermediate cert. -/
def attestServerNoIntermediate : AttestServer :=
  { alias_data := some { alias_cert := List.replicate 631 0 }
    cert_data := some
      { persistid_cert := { data := List.replicate 768 0, size := 565 }
        deviceid_cert := List.replicate 565 0
        intermediate_cert := none } }

/-! ## Theorems -/

/-- Frame property of `setRange`: when the source has exactly the range's
length and the range lies inside the buffer, every index outside the range
is unchanged. -/
theorem setRange_frame (buf src : List UInt8) (start stop i : Nat)
    (hlen : src.length = stop - start) (hstart : start ≤ stop)
    (hstop : stop ≤ buf.length) (hi : i < start ∨ stop ≤ i) :
    (setRange buf start stop src)[i]? = buf[i]? := by
  unfold setRange
  have hA : (List.take start buf).length = start := by
    rw [List.length_take]; omega
  have hAB : (List.take start buf ++ src).length = stop := by
    rw [List.length_append, hA, hlen]; omega
  rcases hi with h | h
  · rw [List.getElem?_append, hAB, if_pos (by omega)]
    rw [List.getElem?_append, hA, if_pos h, List.getElem?_take, if_pos h]
  · rw [List.getElem?_append, hAB, if_neg (by omega)]
    rw [List.getElem?_drop]
    congr 1
    omega

/-- Reading back the single byte written by a width-one `setRange`. -/
theorem setRange_getElem_self (buf : List UInt8) (b : UInt8) (start : Nat)
    (h : start ≤ buf.length) :
    (setRange buf start (start + 1) [b])[start]? = some b := by
  unfold setRange
  have hA : (List.take start buf).length = start := by
    rw [List.length_take]; omega
  have hAB : (List.take start buf ++ [b]).length = start + 1 := by
    rw [List.length_append, hA]; rfl
  rw [List.getElem?_append, hAB, if_pos (by omega)]
  rw [List.getElem?_append_right (by omega)]
  simp [hA]

/-- The length of `setRange buf start stop src` when the source has
exactly the range's length and the range lies inside the buffer. -/
theorem setRange_length (buf src : List UInt8) (start stop : Nat)
    (hlen : src.length = stop - start) (hstart : start ≤ stop)
    (hstop : stop ≤ buf.length) :
    (setRange buf start stop src).length = buf.length := by
  unfold setRange
  simp only [List.length_append, List.length_take, List.length_drop]
  omega

/-- C1 counterexample: with reseed threshold 64, a single 200-byte
`try_fill_bytes` request performs exactly one reseed, not the three the
claim demands, and fewer than the claimed lower bound of
`⌊200 / 64⌋ = 3` reseeds. -/
theorem ReseedingRng.single_call_reseeds_once_not_thrice :
    ReseedingRng.reseedsDuringFill zeroStream (ReseedingRng.new 64) 200 = 1 ∧
    ¬ ReseedingRng.reseedsDuringFill zeroStream (ReseedingRng.new 64) 200 = 3 ∧
    ReseedingRng.reseedsDuringFill zeroStream (ReseedingRng.new 64) 200
      < 200 / 64 := by
  refine ⟨rfl, by decide, by decide⟩

/-- C1 amended: every `try_fill_bytes(dst)` call writes exactly
`dst.len()` bytes, and performs exactly one reseed when `dst.len() ≥
bytes_until_reseed` or `dst.len() ≥ threshold` and none otherwise (in the
latter case decrementing `bytes_until_reseed` by `dst.len()`); in
particular a single 200-byte request at threshold 64 performs exactly one
reseed. -/
theorem ReseedingRng.tryFillBytes_spec :
    (∀ (stream : Nat → Nat → UInt8) (rng : ReseedingRng) (numBytes : Nat),
      (rng.tryFillBytes stream numBytes).2.length = numBytes ∧
      (rng.tryFillBytes stream numBytes).1.innerSid =
        rng.innerSid +
          (if rng.bytes_until_reseed ≤ numBytes ∨ rng.threshold ≤ numBytes
           then 1 else 0) ∧
      (rng.tryFillBytes stream numBytes).1.bytes_until_reseed =
        (if rng.bytes_until_reseed ≤ numBytes ∨ rng.threshold ≤ numBytes
         then rng.threshold else rng.bytes_until_reseed - numBytes)) ∧
    ReseedingRng.reseedsDuringFill zeroStream (ReseedingRng.new 64) 200 = 1 := by
  refine ⟨fun stream rng numBytes => ?_, rfl⟩
  unfold ReseedingRng.tryFillBytes
  by_cases h : rng.bytes_until_reseed ≤ numBytes ∨ rng.threshold ≤ numBytes
  · simp [h]
  · simp [h]

/-- C2: at chain index 0 (cert length 631), offset 632 and a zero-length
lease, the claim (and the spec) demand the `OutOfRange` error since
`offset + dst.len() > cert_len`; the code instead evaluates the unsigned
subtraction `cert.len() - offset`, which underflows and panics the server
task (under wrapping arithmetic the subsequent slice
`cert[632..632]` is out of bounds and panics as well). -/
theorem AttestServer.cert_offset_past_end_panics :
    attestServerNoIntermediate.cert 0 632 0 = .panicked ∧
    ¬ attestServerNoIntermediate.cert 0 632 0 = .err .OutOfRange ∧
    632 + 0 > 631 := by
  refine ⟨by decide, by decide, by decide⟩

/-- C3 counterexample: the claimed layout puts ALIAS at offset 0x0a00 with
a 0x0a00-byte CERTS region; in lib/dice/src/handoff.rs the CERTS region is
0x800 bytes and ALIAS starts at offset 0x800. -/
theorem handoff_layout_counterexample :
    CERTS_SIZE = 0x800 ∧ ¬ CERTS_SIZE = 0xa00 ∧
    ALIAS_START = MEM_START + 0x800 ∧ ¬ ALIAS_START = MEM_START + 0xa00 ∧
    SPMEASURE_START = MEM_START + 0x1000 ∧
    ¬ SPMEASURE_START = MEM_START + 0x1200 ∧
    RNG_START = MEM_START + 0x1800 ∧ ¬ RNG_START = MEM_START + 0x1a00 := by
  refine ⟨rfl, by decide, rfl, by decide, rfl, by decide, rfl, by decide⟩

/-- C3 amended: from base 0x4010_0000 the regions are CERTS (0x0000,
0x0800), ALIAS (0x0800, 0x0800), SPMEASURE (0x1000, 0x0800), RNG (0x1800,
0x0100); every blob type's serialized maximum size fits its reserved
region, and no two regions overlap. -/
theorem handoff_layout_spec :
    MEM_START = 0x40100000 ∧
    CERTS_START = MEM_START ∧ CERTS_SIZE = 0x800 ∧
    ALIAS_START = MEM_START + 0x800 ∧ ALIAS_SIZE = 0x800 ∧
    SPMEASURE_START = MEM_START + 0x1000 ∧ SPMEASURE_SIZE = 0x800 ∧
    RNG_START = MEM_START + 0x1800 ∧ RNG_SIZE = 0x100 ∧
    CertData.MAX_SIZE ≤ CertData.MEM_SIZE ∧
    AliasData.MAX_SIZE ≤ AliasData.MEM_SIZE ∧
    SpMeasureData.MAX_SIZE ≤ SpMeasureData.MEM_SIZE ∧
    RngData.MAX_SIZE ≤ RngData.MEM_SIZE ∧
    CERTS_START + CERTS_SIZE ≤ ALIAS_START ∧
    ALIAS_START + ALIAS_SIZE ≤ SPMEASURE_START ∧
    SPMEASURE_START + SPMEASURE_SIZE ≤ RNG_START := by
  decide

/-- C7: whenever the attest server holds loaded cert data,
`cert_chain_len` returns 3 if the intermediate cert is absent and 4 if it
is present, and no other value is ever returned on success. -/
theorem AttestServer.cert_chain_len_spec (s : AttestServer)
    (cd : CertDataView) (h : s.cert_data = some cd) :
    s.cert_chain_len = .ok (if cd.intermediate_cert.isNone then 3 else 4) ∧
    (s.cert_chain_len = .ok 3 ∨ s.cert_chain_len = .ok 4) := by
  have hcd : s.get_cert_data = .ok cd := by
    unfold AttestServer.get_cert_data
    rw [h]
  constructor
  · unfold AttestServer.cert_chain_len
    rw [hcd]
    rfl
  · unfold AttestServer.cert_chain_len
    rw [hcd]
    by_cases hi : cd.intermediate_cert.isNone
    · left; simp [hi, Bind.bind, Except.bind]
    · right; simp [hi, Bind.bind, Except.bind]

/-- C7 witness: on the concrete state without an intermediate cert the
chain length is 3 (in particular in {3, 4}). -/
theorem AttestServer.cert_chain_len_spec_witness :
    attestServerNoIntermediate.cert_chain_len = .ok 3 ∨
    attestServerNoIntermediate.cert_chain_len = .ok 4 :=
  (AttestServer.cert_chain_len_spec attestServerNoIntermediate _ rfl).2

/-- C10 counterexample: when only the alias region fails to load,
`cert_chain_len` does not return `NoCerts` — it consults the cert data
alone and succeeds with 3. -/
theorem AttestServer.alias_load_failure_chain_len_ok :
    (AttestServer.default none (some
      { persistid_cert := { data := List.replicate 768 0, size := 565 }
        deviceid_cert := List.replicate 565 0
        intermediate_cert := none })).cert_chain_len = .ok 3 ∧
    ¬ (AttestServer.default none (some
      { persistid_cert := { data := List.replicate 768 0, size := 565 }
        deviceid_cert := List.replicate 565 0
        intermediate_cert := none })).cert_chain_len = .error .NoCerts := by
  exact ⟨rfl, fun h => Except.noConfusion h⟩

/-- C10 amended: a failed handoff load leaves the corresponding state
`None` without panicking, and afterwards: if the cert region failed, all
of `cert_chain_len`, `cert_len` and `cert` return `NoCerts`; if the alias
region failed, `cert_len` and `cert` return `NoCerts` (while
`cert_chain_len`, which reads only the cert data, is unaffected). -/
theorem AttestServer.startup_load_failure_spec
    (al : Option AliasDataView) (cd : Option CertDataView) :
    (cd = none → ∀ i off len,
      (AttestServer.default al cd).cert_chain_len = .error .NoCerts ∧
      (AttestServer.default al cd).cert_len i = .error .NoCerts ∧
      (AttestServer.default al cd).cert i off len = .err .NoCerts) ∧
    (al = none → ∀ i off len,
      (AttestServer.default al cd).cert_len i = .error .NoCerts ∧
      (AttestServer.default al cd).cert i off len = .err .NoCerts) := by
  constructor
  · rintro rfl i off len
    cases al with
    | none =>
      refine ⟨rfl, rfl, rfl⟩
    | some a =>
      refine ⟨rfl, rfl, rfl⟩
  · rintro rfl i off len
    cases cd with
    | none => exact ⟨rfl, rfl⟩
    | some c => exact ⟨rfl, rfl⟩

/-- C10 witness: with both loads failed, the three operations return
`NoCerts` at concrete arguments. -/
theorem AttestServer.startup_load_failure_spec_witness :
    (AttestServer.default none none).cert_chain_len = .error .NoCerts ∧
    (AttestServer.default none none).cert_len 0 = .error .NoCerts ∧
    (AttestServer.default none none).cert 0 0 0 = .err .NoCerts :=
  (AttestServer.startup_load_failure_spec none none).1 rfl 0 0 0

/-- Dropping a prefix of known length from an append. -/
theorem drop_append_of_length {α : Type} (a b : List α) (n : Nat)
    (h : a.length = n) : (a ++ b).drop n = b := by
  rw [← h, List.drop_left]

/-- Taking a prefix of known length from an append. -/
theorem take_append_of_length {α : Type} (a b : List α) (n : Nat)
    (h : a.length = n) : (a ++ b).take n = a := by
  rw [← h, List.take_left]

/-- Taking the full length of a list of known length. -/
theorem take_of_length_eq {α : Type} (a : List α) (n : Nat)
    (h : a.length = n) : a.take n = a := by
  rw [← h, List.take_length]


/-- C5 counterexample: a `RngData` value whose magic field is not
`EXPECTED_MAGIC` does not survive the store/load roundtrip — `from_mem`
rejects the stored bytes and returns `None` instead of `Some` of the
stored value. -/
theorem RngData.roundtrip_fails_on_bad_magic :
    RngData.from_mem (Handoff.storeRngData
      { magic := List.replicate 16 0, seed := List.replicate 32 1 }) = none ∧
    ¬ RngData.from_mem (Handoff.storeRngData
      { magic := List.replicate 16 0, seed := List.replicate 32 1 }) =
      some { magic := List.replicate 16 0, seed := List.replicate 32 1 } := by
  refine ⟨by decide, by decide⟩

/-- C5 amended: for every value of each handoff blob type whose fields
have their declared sizes and whose magic field equals `EXPECTED_MAGIC`
(as in every value built by the type's constructor), storing and then
loading returns `Some` of the identical value; loading any of the four
regions when its bytes are all zero returns `None`. -/
theorem HandoffData.load_store_roundtrip :
    (∀ d : CertData, d.magic.length = 16 →
      d.certs.device_id.length = CERT_BLOB_SIZE →
      d.certs.intermediate.length = CERT_BLOB_SIZE →
      d.magic = CertData.EXPECTED_MAGIC →
      CertData.from_mem (Handoff.storeCertData d) = some d) ∧
    (∀ d : AliasData, d.magic.length = 16 →
      d.alias_seed.length = 32 → d.alias_cert.length = leafcert_tmpl.SIZE →
      d.tqdhe_seed.length = 32 → d.tqdhe_cert.length = leafcert_tmpl.SIZE →
      d.magic = AliasData.EXPECTED_MAGIC →
      AliasData.from_mem (Handoff.storeAliasData d) = some d) ∧
    (∀ d : SpMeasureData, d.magic.length = 16 →
      d.seed.length = 32 → d.spmeasure_cert.length = spmeasure_cert_tmpl.SIZE →
      d.magic = SpMeasureData.EXPECTED_MAGIC →
      SpMeasureData.from_mem (Handoff.storeSpMeasureData d) = some d) ∧
    (∀ d : RngData, d.magic.length = 16 → d.seed.length = 32 →
      d.magic = RngData.EXPECTED_MAGIC →
      RngData.from_mem (Handoff.storeRngData d) = some d) ∧
    CertData.from_mem (List.replicate CertData.MAX_SIZE 0) = none ∧
    AliasData.from_mem (List.replicate AliasData.MAX_SIZE 0) = none ∧
    SpMeasureData.from_mem (List.replicate SpMeasureData.MAX_SIZE 0) = none ∧
    RngData.from_mem (List.replicate RngData.MAX_SIZE 0) = none := by
  refine ⟨?_, ?_, ?_, ?_, by decide, by decide, by decide, by decide⟩
  · rintro ⟨m, di, ic⟩ hm hdi hic hmag
    simp only at hm hdi hic hmag
    have hdeser : CertData.deserialize (CertData.serialize ⟨m, di, ic⟩) =
        some ⟨m, di, ic⟩ := by
      unfold CertData.deserialize CertData.serialize
      simp only
      have e1 : (m ++ di ++ ic).take 16 = m := by
        rw [List.append_assoc]
        exact take_append_of_length _ _ _ hm
      have e2 : (m ++ di ++ ic).drop 16 = di ++ ic := by
        rw [List.append_assoc]
        exact drop_append_of_length _ _ _ hm
      have e4 : (m ++ di ++ ic).drop (16 + CERT_BLOB_SIZE) = ic := by
        refine drop_append_of_length (m ++ di) ic _ ?_
        rw [List.length_append, hm, hdi]
      have hlen : CertData.MAX_SIZE ≤ (m ++ di ++ ic).length := by
        simp only [List.length_append, hm, hdi, hic]
        decide
      rw [if_pos hlen, e1, e2, take_append_of_length _ _ _ hdi, e4,
        take_of_length_eq _ _ hic]
    unfold CertData.from_mem Handoff.storeCertData
    rw [hdeser]
    simp only
    rw [if_pos hmag]
  · rintro ⟨m, s, c, t, u⟩ hm hs hc ht hu hmag
    simp only at hm hs hc ht hu hmag
    have hcn : c.length = 631 := hc
    have hun : u.length = 631 := hu
    have hdeser : AliasData.deserialize (AliasData.serialize ⟨m, s, c, t, u⟩) =
        some ⟨m, s, c, t, u⟩ := by
      unfold AliasData.deserialize AliasData.serialize
      simp only
      have e1 : (m ++ s ++ c ++ t ++ u).take 16 = m := by
        simp only [List.append_assoc]
        exact take_append_of_length _ _ _ hm
      have e2 : (m ++ s ++ c ++ t ++ u).drop 16 = s ++ (c ++ (t ++ u)) := by
        simp only [List.append_assoc]
        exact drop_append_of_length _ _ _ hm
      have e3 : (m ++ s ++ c ++ t ++ u).drop 48 = c ++ (t ++ u) := by
        have : m ++ s ++ c ++ t ++ u = (m ++ s) ++ (c ++ (t ++ u)) := by
          simp only [List.append_assoc]
        rw [this]
        refine drop_append_of_length _ _ _ ?_
        rw [List.length_append, hm, hs]
      have e4 : (m ++ s ++ c ++ t ++ u).drop (48 + leafcert_tmpl.SIZE) =
          t ++ u := by
        have : m ++ s ++ c ++ t ++ u = (m ++ s ++ c) ++ (t ++ u) := by
          simp only [List.append_assoc]
        rw [this]
        refine drop_append_of_length _ _ _ ?_
        simp only [List.length_append, hm, hs, hcn]
        rfl
      have e5 : (m ++ s ++ c ++ t ++ u).drop (80 + leafcert_tmpl.SIZE) = u := by
        have : m ++ s ++ c ++ t ++ u = (m ++ s ++ c ++ t) ++ u := rfl
        rw [this]
        refine drop_append_of_length _ _ _ ?_
        simp only [List.length_append, hm, hs, hcn, ht]
        rfl
      have hlen : AliasData.MAX_SIZE ≤ (m ++ s ++ c ++ t ++ u).length := by
        simp only [List.length_append, hm, hs, hcn, ht, hun]
        decide
      rw [if_pos hlen, e1, e2, take_append_of_length _ _ _ hs, e3,
        take_append_of_length _ _ _ hc, e4, take_append_of_length _ _ _ ht,
        e5, take_of_length_eq _ _ hu]
    unfold AliasData.from_mem Handoff.storeAliasData
    rw [hdeser]
    simp only
    rw [if_pos hmag]
  · rintro ⟨m, s, c⟩ hm hs hc hmag
    simp only at hm hs hc hmag
    have hdeser : SpMeasureData.deserialize
        (SpMeasureData.serialize ⟨m, s, c⟩) = some ⟨m, s, c⟩ := by
      unfold SpMeasureData.deserialize SpMeasureData.serialize
      simp only
      have e1 : (m ++ s ++ c).take 16 = m := by
        simp only [List.append_assoc]
        exact take_append_of_length _ _ _ hm
      have e2 : (m ++ s ++ c).drop 16 = s ++ c := by
        simp only [List.append_assoc]
        exact drop_append_of_length _ _ _ hm
      have e3 : (m ++ s ++ c).drop 48 = c := by
        refine drop_append_of_length (m ++ s) c _ ?_
        rw [List.length_append, hm, hs]
      have hlen : SpMeasureData.MAX_SIZE ≤ (m ++ s ++ c).length := by
        simp only [List.length_append, hm, hs, hc]
        decide
      rw [if_pos hlen, e1, e2, take_append_of_length _ _ _ hs, e3,
        take_of_length_eq _ _ hc]
    unfold SpMeasureData.from_mem Handoff.storeSpMeasureData
    rw [hdeser]
    simp only
    rw [if_pos hmag]
  · rintro ⟨m, s⟩ hm hs hmag
    simp only at hm hs hmag
    have hdeser : RngData.deserialize (RngData.serialize ⟨m, s⟩) =
        some ⟨m, s⟩ := by
      unfold RngData.deserialize RngData.serialize
      simp only
      have e1 : (m ++ s).take 16 = m := take_append_of_length _ _ _ hm
      have e2 : (m ++ s).drop 16 = s := drop_append_of_length _ _ _ hm
      have hlen : RngData.MAX_SIZE ≤ (m ++ s).length := by
        simp only [List.length_append, hm, hs]
        decide
      rw [if_pos hlen, e1, e2, take_of_length_eq _ _ hs]
    unfold RngData.from_mem Handoff.storeRngData
    rw [hdeser]
    simp only
    rw [if_pos hmag]

/-- C5 witness: one concrete roundtrip per blob type, at values built the
way each type's constructor builds them. -/
theorem HandoffData.load_store_roundtrip_witness :
    CertData.from_mem (Handoff.storeCertData
      { magic := CertData.EXPECTED_MAGIC
        certs := { device_id := List.replicate 768 2
                   intermediate := List.replicate 768 3 } }) =
      some { magic := CertData.EXPECTED_MAGIC
             certs := { device_id := List.replicate 768 2
                        intermediate := List.replicate 768 3 } } ∧
    AliasData.from_mem (Handoff.storeAliasData
      { magic := AliasData.EXPECTED_MAGIC
        alias_seed := List.replicate 32 4
        alias_cert := List.replicate 631 5
        tqdhe_seed := List.replicate 32 6
        tqdhe_cert := List.replicate 631 7 }) =
      some { magic := AliasData.EXPECTED_MAGIC
             alias_seed := List.replicate 32 4
             alias_cert := List.replicate 631 5
             tqdhe_seed := List.replicate 32 6
             tqdhe_cert := List.replicate 631 7 } ∧
    SpMeasureData.from_mem (Handoff.storeSpMeasureData
      { magic := SpMeasureData.EXPECTED_MAGIC
        seed := List.replicate 32 8
        spmeasure_cert := List.replicate 631 9 }) =
      some { magic := SpMeasureData.EXPECTED_MAGIC
             seed := List.replicate 32 8
             spmeasure_cert := List.replicate 631 9 } ∧
    RngData.from_mem (Handoff.storeRngData
      { magic := RngData.EXPECTED_MAGIC, seed := List.replicate 32 10 }) =
      some { magic := RngData.EXPECTED_MAGIC
             seed := List.replicate 32 10 } :=
  ⟨HandoffData.load_store_roundtrip.1 _ (by decide) (by decide) (by decide)
      rfl,
    HandoffData.load_store_roundtrip.2.1 _ (by decide) (by decide) (by decide)
      (by decide) (by decide) rfl,
    HandoffData.load_store_roundtrip.2.2.1 _ (by decide) (by decide)
      (by decide) rfl,
    HandoffData.load_store_roundtrip.2.2.2.1 _ (by decide) (by decide) rfl⟩

/-- C6: `sign` mutates only the SIG range.  For both cert shapes, given a
buffer of the template's length and a signer producing the 64-byte
Ed25519 signature, every byte outside `[SIG_START, SIG_END)` equals its
value before `sign`. -/
theorem Cert.sign_frame :
    (∀ (sigFn : List UInt8 → List UInt8) (buf : List UInt8),
      buf.length = cert_tmpl.SIZE →
      (sigFn (DeviceIdCert.get_signdata buf)).length = 64 →
      ∀ i, i < cert_tmpl.SIG_START ∨ cert_tmpl.SIG_END ≤ i →
        (DeviceIdCert.sign sigFn buf)[i]? = buf[i]?) ∧
    (∀ (sigFn : List UInt8 → List UInt8) (buf : List UInt8),
      buf.length = leafcert_tmpl.SIZE →
      (sigFn (AliasCert.get_signdata buf)).length = 64 →
      ∀ i, i < leafcert_tmpl.SIG_START ∨ leafcert_tmpl.SIG_END ≤ i →
        (AliasCert.sign sigFn buf)[i]? = buf[i]?) := by
  constructor
  · intro sigFn buf hbuf hsig i hi
    unfold DeviceIdCert.sign
    refine setRange_frame buf _ _ _ i ?_ (by decide) ?_ hi
    · rw [hsig]
      decide
    · rw [hbuf]
      decide
  · intro sigFn buf hbuf hsig i hi
    unfold AliasCert.sign
    refine setRange_frame buf _ _ _ i ?_ (by decide) ?_ hi
    · rw [hsig]
      decide
    · rw [hbuf]
      decide

/-- C6 witness: the frame property at a concrete buffer, signer and
index for each cert shape. -/
theorem Cert.sign_frame_witness :
    (DeviceIdCert.sign (fun _ => List.replicate 64 (1 : UInt8))
      (List.replicate 565 (0 : UInt8)))[0]? =
      (List.replicate 565 (0 : UInt8))[0]? ∧
    (AliasCert.sign (fun _ => List.replicate 64 (1 : UInt8))
      (List.replicate 631 (0 : UInt8)))[2]? =
      (List.replicate 631 (0 : UInt8))[2]? :=
  ⟨Cert.sign_frame.1 (fun _ => List.replicate 64 1)
      (List.replicate 565 0) (by decide) (by decide) 0 (Or.inl (by decide)),
    Cert.sign_frame.2 (fun _ => List.replicate 64 1)
      (List.replicate 631 0) (by decide) (by decide) 2 (Or.inl (by decide))⟩

/-- Bytes strictly before the written range are unchanged by `setRange`,
for a source of any length. -/
theorem setRange_frame_lt (buf src : List UInt8) (start stop i : Nat)
    (hi : i < start) (hstart : start ≤ buf.length) :
    (setRange buf start stop src)[i]? = buf[i]? := by
  unfold setRange
  have hA : (List.take start buf).length = start := by
    rw [List.length_take]; omega
  rw [List.getElem?_append]
  rw [if_pos (by rw [List.length_append, hA]; omega)]
  rw [List.getElem?_append]
  rw [if_pos (by rw [hA]; omega)]
  rw [List.getElem?_take, if_pos hi]

/-- Length of `setRange` for arbitrary source length. -/
theorem setRange_length_eq (buf src : List UInt8) (s e : Nat) :
    (setRange buf s e src).length =
      min s buf.length + src.length + (buf.length - e) := by
  unfold setRange
  simp only [List.length_append, List.length_take, List.length_drop]

/-- The SERIAL_NUMBER byte (offset 15) of a built-and-signed leaf cert is
the cert serial passed to the builder, whatever the other inputs. -/
theorem leafCertBuildSign_serial_byte (sigFn : List UInt8 → List UInt8)
    (tmpl : List UInt8) (serial : Nat)
    (issuerSn subjectSn pubkey fwid : List UInt8)
    (htmpl : tmpl.length = leafcert_tmpl.SIZE)
    (hissuer : issuerSn.length = 12) (hsubject : subjectSn.length = 12)
    (hpub : pubkey.length = 32) (hfwid : fwid.length = 32) :
    (leafCertBuildSign sigFn tmpl serial issuerSn subjectSn pubkey fwid)[15]? =
      some (UInt8.ofNat serial) := by
  have htmpl' : tmpl.length = 631 := htmpl
  unfold leafCertBuildSign AliasCert.sign
  simp only [leafcert_tmpl.SERIAL_NUMBER_START, leafcert_tmpl.SERIAL_NUMBER_END,
    leafcert_tmpl.ISSUER_SN_START, leafcert_tmpl.ISSUER_SN_END,
    leafcert_tmpl.SUBJECT_SN_START, leafcert_tmpl.SUBJECT_SN_END,
    leafcert_tmpl.PUB_START, leafcert_tmpl.PUB_END,
    leafcert_tmpl.FWID_START, leafcert_tmpl.FWID_END,
    leafcert_tmpl.SIG_START, leafcert_tmpl.SIG_END]
  have l1 : (setRange tmpl 15 16 [UInt8.ofNat serial]).length = 631 := by
    rw [setRange_length_eq, htmpl']
    simp only [List.length_singleton]
    decide
  have l2 : (setRange (setRange tmpl 15 16 [UInt8.ofNat serial]) 169 180
      issuerSn).length = 632 := by
    rw [setRange_length_eq, l1, hissuer]; decide
  have l3 : (setRange (setRange (setRange tmpl 15 16 [UInt8.ofNat serial])
      169 180 issuerSn) 361 372 subjectSn).length = 633 := by
    rw [setRange_length_eq, l2, hsubject]; decide
  have l4 : (setRange (setRange (setRange (setRange tmpl 15 16
      [UInt8.ofNat serial]) 169 180 issuerSn) 361 372 subjectSn) 384 416
      pubkey).length = 633 := by
    rw [setRange_length_eq, l3, hpub]; decide
  have l5 : (setRange (setRange (setRange (setRange (setRange tmpl 15 16
      [UInt8.ofNat serial]) 169 180 issuerSn) 361 372 subjectSn) 384 416
      pubkey) 525 557 fwid).length = 633 := by
    rw [setRange_length_eq, l4, hfwid]; decide
  rw [setRange_frame_lt _ _ 567 631 15 (by omega) (by rw [l5]; omega)]
  rw [setRange_frame_lt _ _ 525 557 15 (by omega) (by rw [l4]; omega)]
  rw [setRange_frame_lt _ _ 384 416 15 (by omega) (by rw [l3]; omega)]
  rw [setRange_frame_lt _ _ 361 372 15 (by omega) (by rw [l2]; omega)]
  rw [setRange_frame_lt _ _ 169 180 15 (by omega) (by rw [l1]; omega)]
  rw [show (16 : Nat) = 15 + 1 from rfl]
  exact setRange_getElem_self tmpl _ 15 (by rw [htmpl']; omega)

/-- C4: in a stage0 DICE run the cert-serial counter is incremented once
per child cert in builder-invocation order — Alias, then TrustQuorumDHE,
then SpMeasure — so their SERIAL_NUMBER bytes are 1, 2 and 3 and the
counter finishes at 3. -/
theorem dice.run_cert_serial_numbers (sigFn : List UInt8 → List UInt8)
    (tmpl aliasPub tqdhePub spmeasurePub fwid : List UInt8) (regs : List Nat)
    (htmpl : tmpl.length = leafcert_tmpl.SIZE) (hap : aliasPub.length = 32)
    (htp : tqdhePub.length = 32) (hsp : spmeasurePub.length = 32)
    (hf : fwid.length = 32)
    (hcdi : ¬ ((((regs.take 8).map u32ToLeBytes).flatten.all (· == 0))
      = true)) :
    (dice.run sigFn tmpl aliasPub tqdhePub spmeasurePub
        fwid regs).1.alias_cert[15]? = some (UInt8.ofNat 1) ∧
    (dice.run sigFn tmpl aliasPub tqdhePub spmeasurePub
        fwid regs).1.tqdhe_cert[15]? = some (UInt8.ofNat 2) ∧
    (dice.run sigFn tmpl aliasPub tqdhePub spmeasurePub
        fwid regs).1.spmeasure_cert[15]? = some (UInt8.ofNat 3) ∧
    (dice.run sigFn tmpl aliasPub tqdhePub spmeasurePub
        fwid regs).1.counter.value = 3 := by
  have hrun : (dice.run sigFn tmpl aliasPub tqdhePub spmeasurePub
      fwid regs).1 =
      { stores := [.certs, .alias, .spmeasure, .rng]
        alias_cert := leafCertBuildSign sigFn tmpl 1 PLACEHOLDER_SN
          PLACEHOLDER_SN aliasPub fwid
        tqdhe_cert := leafCertBuildSign sigFn tmpl 2 PLACEHOLDER_SN
          PLACEHOLDER_SN tqdhePub fwid
        spmeasure_cert := leafCertBuildSign sigFn tmpl 3 PLACEHOLDER_SN
          PLACEHOLDER_SN spmeasurePub fwid
        counter := ⟨3⟩ } := by
    unfold dice.run
    have hfr : Cdi.from_reg regs =
        (some (((regs.take 8).map u32ToLeBytes).flatten),
          List.replicate 8 0 ++ regs.drop 8) := by
      simp only [Cdi.from_reg]
      rw [if_neg hcdi]
    rw [hfr]
    rfl
  rw [hrun]
  refine ⟨?_, ?_, ?_, rfl⟩ <;>
    exact leafCertBuildSign_serial_byte _ _ _ _ _ _ _ htmpl (by decide)
      (by decide) (by assumption) hf

/-- C4 witness: the serial bytes on a concrete run with nonzero CDI
registers and concrete keys. -/
theorem dice.run_cert_serial_numbers_witness :
    (dice.run (fun _ => List.replicate 64 0) (List.replicate 631 0)
        (List.replicate 32 1) (List.replicate 32 2) (List.replicate 32 3)
        (List.replicate 32 4) (List.replicate 8 5)).1.alias_cert[15]? =
      some (UInt8.ofNat 1) ∧
    (dice.run (fun _ => List.replicate 64 0) (List.replicate 631 0)
        (List.replicate 32 1) (List.replicate 32 2) (List.replicate 32 3)
        (List.replicate 32 4) (List.replicate 8 5)).1.tqdhe_cert[15]? =
      some (UInt8.ofNat 2) ∧
    (dice.run (fun _ => List.replicate 64 0) (List.replicate 631 0)
        (List.replicate 32 1) (List.replicate 32 2) (List.replicate 32 3)
        (List.replicate 32 4) (List.replicate 8 5)).1.spmeasure_cert[15]? =
      some (UInt8.ofNat 3) ∧
    (dice.run (fun _ => List.replicate 64 0) (List.replicate 631 0)
        (List.replicate 32 1) (List.replicate 32 2) (List.replicate 32 3)
        (List.replicate 32 4) (List.replicate 8 5)).1.counter.value = 3 :=
  dice.run_cert_serial_numbers _ _ _ _ _ _ _ (by decide) (by decide)
    (by decide) (by decide) (by decide) (by decide)

/-- The four little-endian bytes of a `u32` are all zero exactly when the
word is zero. -/
theorem u32ToLeBytes_all_zero (w : Nat) (hw : w < 2 ^ 32) :
    ((u32ToLeBytes w).all (· == 0) = true) ↔ w = 0 := by
  unfold u32ToLeBytes
  simp only [List.all_cons, List.all_nil, Bool.and_eq_true, Bool.and_true,
    beq_iff_eq]
  constructor
  · rintro ⟨h0, h1, h2, h3⟩
    have t0 : w % 256 = 0 := congrArg UInt8.toNat h0
    have t1 : w / 2 ^ 8 % 256 = 0 := congrArg UInt8.toNat h1
    have t2 : w / 2 ^ 16 % 256 = 0 := congrArg UInt8.toNat h2
    have t3 : w / 2 ^ 24 % 256 = 0 := congrArg UInt8.toNat h3
    omega
  · rintro rfl
    exact ⟨rfl, rfl, rfl, rfl⟩

/-- The concatenated little-endian bytes of a list of `u32` words are all
zero exactly when every word is zero. -/
theorem flatten_u32ToLeBytes_all_zero (regs : List Nat)
    (hbound : ∀ w ∈ regs, w < 2 ^ 32) :
    (((regs.map u32ToLeBytes).flatten.all (· == 0)) = true) ↔
      ∀ w ∈ regs, w = 0 := by
  induction regs with
  | nil => simp
  | cons w ws ih =>
    simp only [List.map_cons, List.flatten_cons, List.all_append,
      Bool.and_eq_true, List.mem_cons, forall_eq_or_imp]
    constructor
    · rintro ⟨hw, hws⟩
      exact ⟨(u32ToLeBytes_all_zero w (hbound w (by simp))).1 hw,
        (ih fun x hx => hbound x (by simp [hx])).1 hws⟩
    · rintro ⟨hw, hws⟩
      exact ⟨(u32ToLeBytes_all_zero w (hbound w (by simp))).2 hw,
        (ih fun x hx => hbound x (by simp [hx])).2 hws⟩

/-- C9: `Cdi::new` overwrites every word of the CDI register bank with
zeros whatever it returns; it returns `None` exactly when the registers
read all zero; and in that case a stage0 run stores no DICE artifacts. -/
theorem Cdi.from_reg_clears_and_gates (regs : List Nat)
    (h8 : regs.length = 8) (hbound : ∀ w ∈ regs, w < 2 ^ 32) :
    (Cdi.from_reg regs).2 = List.replicate 8 0 ∧
    ((Cdi.from_reg regs).1 = none ↔ ∀ w ∈ regs, w = 0) ∧
    ((Cdi.from_reg regs).1 = none →
      ∀ (sigFn : List UInt8 → List UInt8)
        (tmpl aliasPub tqdhePub spmeasurePub fwid : List UInt8),
        (dice.run sigFn tmpl aliasPub tqdhePub spmeasurePub
          fwid regs).1.stores = []) := by
  have htake : regs.take 8 = regs := take_of_length_eq regs 8 h8
  have hdrop : regs.drop 8 = [] := by
    apply List.drop_eq_nil_of_le
    omega
  refine ⟨?_, ?_, ?_⟩
  · simp only [Cdi.from_reg, hdrop, List.append_nil]
  · simp only [Cdi.from_reg, htake]
    by_cases hz : ((regs.map u32ToLeBytes).flatten.all (· == 0)) = true
    · rw [if_pos hz]
      simp only [true_iff]
      exact (flatten_u32ToLeBytes_all_zero regs hbound).1 hz
    · rw [if_neg hz]
      simp only [reduceCtorEq, false_iff]
      intro hall
      exact hz ((flatten_u32ToLeBytes_all_zero regs hbound).2 hall)
  · intro hnone sigFn tmpl aliasPub tqdhePub spmeasurePub fwid
    unfold dice.run
    have hfr : Cdi.from_reg regs = (none, (Cdi.from_reg regs).2) :=
      Prod.ext hnone rfl
    rw [hfr]

/-- C9 witness: with the register bank all zero, the bank is left zeroed,
the result is `None`, and the stage0 run stores nothing. -/
theorem Cdi.from_reg_clears_and_gates_witness :
    (Cdi.from_reg (List.replicate 8 0)).2 = List.replicate 8 0 ∧
    ((Cdi.from_reg (List.replicate 8 0)).1 = none ↔
      ∀ w ∈ List.replicate 8 0, w = 0) ∧
    ((Cdi.from_reg (List.replicate 8 0)).1 = none →
      ∀ (sigFn : List UInt8 → List UInt8)
        (tmpl aliasPub tqdhePub spmeasurePub fwid : List UInt8),
        (dice.run sigFn tmpl aliasPub tqdhePub spmeasurePub
          fwid (List.replicate 8 0)).1.stores = []) :=
  Cdi.from_reg_clears_and_gates (List.replicate 8 0) (by decide) (by decide)
